import Mathlib

/-!
Shallow embedding of the chat server in src/unnamed/part_001 (server/index.js)
together with the stored-message schema in src/server/models/Message.js.

The server keeps one global JS object
  users : socketId -> record with fields id, username, room   (line 31, line 43)
and relies on the socket.io adapter for room membership
(socket.join at line 44; each socket is also auto-joined to a room named
after its own socket id on connection).  The durable store is the Mongo
Message collection (append via msg.save, query via Message.find).

The embedding keeps JS object semantics explicit: the users map is an
association list in key-insertion order (Object.values enumerates string
keys in insertion order; assigning to an existing key keeps its position),
and a field that is never written reads as undefined, modelled as none.
Each socket.io emit is recorded as a Delivery: the list of connection ids
that receive it, resolved against the adapter state at emit time, plus the
payload.  An uncaught exception in a handler (TypeError, rejected await)
is recorded by the threw flag; emits after the throwing point do not
happen.  uuidv4 values are modelled as fresh naturals from a counter, and
Date.now timestamps as fresh naturals from a second counter.
-/

/-- One record of the users map. Line 43 stores exactly the fields
id, username and room; socketId is never written anywhere in the program,
so reading it always yields undefined, represented by the none it is
initialised with here. -/
structure UserRec where
  id : Nat
  username : String
  room : String
  socketId : Option String
  deriving DecidableEq, Repr

/-- A document of the Mongo Message collection
(src/server/models/Message.js): username, message, room, timestamp. -/
structure StoredMessage where
  username : String
  message : String
  room : String
  timestamp : Nat
  deriving DecidableEq, Repr

/-- The payloads the server emits (lines 39, 50, 53, 54, 62, 67, 72, 77,
84, 89, 94, 105, 106 of part_001). -/
inductive Payload where
  | chatHistory (msgs : List StoredMessage)
  | userJoined (text : String)
  | userLeft (text : String)
  | userList (usersNow : List UserRec)
  | chatMsg (username message : String) (timestamp : Nat)
  | typing (username : String)
  | stopTyping
  | privateIn (fromName message : String) (timestamp : Nat)
  | privateOut (toName message : String) (timestamp : Nat)
  | errorMsg (reason : String)
  deriving DecidableEq, Repr

/-- One emit, with its recipient set resolved at emit time. -/
structure Delivery where
  recipients : List String
  payload : Payload
  deriving DecidableEq, Repr

/-- Global server state: the users map (line 31), the socket.io adapter
room membership per socket, the Mongo store, and the counters backing
uuidv4 and Date.now. -/
structure ServerState where
  users : List (String × UserRec)
  socketRooms : List (String × List String)
  store : List StoredMessage
  nextId : Nat
  nextTs : Nat
  deriving DecidableEq, Repr

/-- Result of running one event handler: the new state, the emits it
performed in order, and whether it terminated with an uncaught
exception. -/
structure HandlerResult where
  state : ServerState
  deliveries : List Delivery
  threw : Bool
  deriving DecidableEq, Repr

/-- Read users[k] (JS property read on the users object). -/
def getUser (us : List (String × UserRec)) (k : String) : Option UserRec :=
  (us.find? (fun p => p.1 == k)).map (fun p => p.2)

/-- Write users[k] = v: an existing key keeps its insertion position, a
new key is appended (JS object assignment semantics, line 43). -/
def setUser (us : List (String × UserRec)) (k : String) (v : UserRec) :
    List (String × UserRec) :=
  if us.any (fun p => p.1 == k) then
    us.map (fun p => if p.1 == k then (k, v) else p)
  else
    us ++ [(k, v)]

/-- delete users[k] (line 110). -/
def delUser (us : List (String × UserRec)) (k : String) :
    List (String × UserRec) :=
  us.filter (fun p => p.1 != k)

/-- Object.values(users): the records in key-insertion order. -/
def userValues (us : List (String × UserRec)) : List UserRec :=
  us.map (fun p => p.2)

/-- socket.join(room): add room to the socket.io room set of connId
(line 44). Rooms form a set, so a room already joined is not added
twice. -/
def joinRoom (sr : List (String × List String)) (connId room : String) :
    List (String × List String) :=
  sr.map (fun p =>
    if p.1 == connId then
      (p.1, if p.2.contains room then p.2 else p.2 ++ [room])
    else p)

/-- A new socket.io connection: the socket is auto-joined to a room named
after its own id (this is how socket.to(someSocketId) can address a
single socket). -/
def connectSocket (st : ServerState) (connId : String) : ServerState :=
  { st with socketRooms := st.socketRooms ++ [(connId, [connId])] }

/-- The socket.io adapter view: the sockets currently joined to room r.
Broadcasts io.to(r) / socket.to(r) resolve their recipients from this. -/
def membersOf (sr : List (String × List String)) (r : String) :
    List String :=
  (sr.filter (fun p => p.2.contains r)).map (fun p => p.1)

/-- io.to(room).emit: every socket in the room, sender included. -/
def ioTo (st : ServerState) (room : String) : List String :=
  membersOf st.socketRooms room

/-- socket.to(room).emit: every socket in the room except the sender. -/
def socketTo (st : ServerState) (room sender : String) : List String :=
  (membersOf st.socketRooms room).filter (fun c => c != sender)

/-- socket.to(v) where v is a JS value that may be undefined (line 89
passes recipient.socketId).  socket.to(undefined) names a room called
undefined that no socket is ever in, so it reaches nobody. -/
def socketToOpt (st : ServerState) (v : Option String) (sender : String) :
    List String :=
  match v with
  | none => []
  | some r => socketTo st r sender

/-- Message.find(room).sort(timestamp descending).limit(50) followed by
the .reverse() at line 50.  The store list is in append order with
strictly increasing timestamps, so the sort is a list reversal and the
result is the most recent 50 messages of the room, oldest first. -/
def fetchHistory (st : ServerState) (room : String) : List StoredMessage :=
  (((st.store.filter (fun m => m.room == room)).reverse).take 50).reverse

/-- The JS String.prototype.trim used at line 61: strip leading and
trailing whitespace.  Defined structurally on the character list so that
it evaluates inside the kernel. -/
def jsTrim (s : String) : String :=
  ⟨((s.data.dropWhile Char.isWhitespace).reverse.dropWhile
      Char.isWhitespace).reverse⟩

/-- Handler for the join event (part_001 lines 37-57).  Validation: if
username or room is falsy (empty string), emit an error to the sender and
return.  Otherwise generate a fresh uuid, overwrite users[socket.id] with
a brand new record (line 43 — unconditionally, also when the connection
already has one), socket.join(room) (line 44, with no leave of any
previously joined room), then emit the chat history to the joiner, a
user-joined notice to the room except the joiner, and the filtered user
list to the whole room. -/
def handleJoin (st : ServerState) (connId username room : String) :
    HandlerResult :=
  if username == "" || room == "" then
    { state := st
      deliveries := [⟨[connId], Payload.errorMsg "Username and room are required"⟩]
      threw := false }
  else
    let userId := st.nextId
    let st1 : ServerState :=
      { st with
        users := setUser st.users connId ⟨userId, username, room, none⟩
        socketRooms := joinRoom st.socketRooms connId room
        nextId := st.nextId + 1 }
    { state := st1
      deliveries :=
        [⟨[connId], Payload.chatHistory (fetchHistory st1 room)⟩,
         ⟨socketTo st1 room connId,
          Payload.userJoined (username ++ " has joined the room")⟩,
         ⟨ioTo st1 room,
          Payload.userList ((userValues st1.users).filter
            (fun u => u.room == room))⟩]
      threw := false }

/-- Handler for the chat message event (part_001 lines 60-68).  The
message field of the payload may be absent (undefined), in which case
message.trim() at line 61 raises a TypeError and the handler terminates
exceptionally with nothing emitted.  Otherwise: reject (error to sender
only) when the trimmed body is empty or the body exceeds 500 units; else
persist via msg.save() — storeOk models whether the awaited save
succeeds; a rejected save aborts the handler before the emit at line 67 —
and broadcast the message, tagged with the username and room taken from
the payload, to every socket in that room. -/
def handleChatMessage (st : ServerState) (connId : String)
    (message : Option String) (room username : String) (storeOk : Bool) :
    HandlerResult :=
  match message with
  | none => { state := st, deliveries := [], threw := true }
  | some m =>
    if jsTrim m = "" ∨ m.length > 500 then
      { state := st
        deliveries := [⟨[connId], Payload.errorMsg "Invalid message"⟩]
        threw := false }
    else if storeOk then
      let ts := st.nextTs
      let st1 : ServerState :=
        { st with store := st.store ++ [⟨username, m, room, ts⟩]
                  nextTs := st.nextTs + 1 }
      { state := st1
        deliveries := [⟨ioTo st1 room, Payload.chatMsg username m ts⟩]
        threw := false }
    else
      { state := st, deliveries := [], threw := true }

/-- Handler for the typing event (part_001 lines 71-73): a stateless
relay, socket.to(room).emit of the payload username to everyone in the
room but the sender.  No typing state is kept and no timer exists on the
server. -/
def handleTyping (st : ServerState) (connId username room : String) :
    HandlerResult :=
  { state := st
    deliveries := [⟨socketTo st room connId, Payload.typing username⟩]
    threw := false }

/-- Handler for the stop typing event (part_001 lines 76-78): the same
stateless relay shape. -/
def handleStopTyping (st : ServerState) (connId room : String) :
    HandlerResult :=
  { state := st
    deliveries := [⟨socketTo st room connId, Payload.stopTyping⟩]
    threw := false }

/-- Handler for the private message event (part_001 lines 81-99).  Find
the recipient record by userId among Object.values(users); if absent,
error to the sender.  Otherwise persist the message under the room tag
private-toUserId (line 87; a rejected save aborts the handler), then emit
the message via socket.to(recipient.socketId) — a field the program never
stores, so the read yields undefined and the emit reaches no socket — and
emit the confirmation copy to the sender. -/
def handlePrivateMessage (st : ServerState) (connId : String)
    (toUserId : Nat) (message username : String) (storeOk : Bool) :
    HandlerResult :=
  match (userValues st.users).find? (fun u => u.id == toUserId) with
  | none =>
    { state := st
      deliveries := [⟨[connId], Payload.errorMsg "User not found"⟩]
      threw := false }
  | some recipient =>
    if storeOk then
      let ts := st.nextTs
      let st1 : ServerState :=
        { st with
          store := st.store ++
            [⟨username, message, "private-" ++ toString toUserId, ts⟩]
          nextTs := st.nextTs + 1 }
      { state := st1
        deliveries :=
          [⟨socketToOpt st1 recipient.socketId connId,
            Payload.privateIn username message ts⟩,
           ⟨[connId], Payload.privateOut recipient.username message ts⟩]
        threw := false }
    else
      { state := st, deliveries := [], threw := true }

/-- Handler for the disconnect event (part_001 lines 102-113).  When the
disconnect event fires, socket.io has already removed the socket from all
its rooms, so the broadcasts resolve against the adapter without it.  If
users[socket.id] exists: emit the user-left notice to the vacated room,
emit the user list for that room — computed from the users map BEFORE the
delete at line 110, so it still carries the departing record — and only
then delete the entry. -/
def handleDisconnect (st : ServerState) (connId : String) : HandlerResult :=
  let st0 : ServerState :=
    { st with socketRooms := st.socketRooms.filter (fun p => p.1 != connId) }
  match getUser st0.users connId with
  | none => { state := st0, deliveries := [], threw := false }
  | some user =>
    let listBefore :=
      (userValues st0.users).filter (fun u => u.room == user.room)
    { state := { st0 with users := delUser st0.users connId }
      deliveries :=
        [⟨socketTo st0 user.room connId,
          Payload.userLeft (user.username ++ " has left the room")⟩,
         ⟨ioTo st0 user.room, Payload.userList listBefore⟩]
      threw := false }

/-! Concrete scenario states used by the claim theorems. -/

/-- The empty server: no users, no sockets, empty store, fresh counters. -/
def st0 : ServerState := ⟨[], [], [], 0, 0⟩

/-- Connection c1 joins room a as alice. -/
def stA : ServerState :=
  (handleJoin (connectSocket st0 "c1") "c1" "alice" "a").state

/-- From stA, the same connection c1 sends a second join for room b
(the room-switch path: the client re-emits join when switching rooms). -/
def stB : ServerState := (handleJoin stA "c1" "alice" "b").state

/-- From stA, a second connection c2 joins room a as bob: alice is on c1
with userId 0, bob on c2 with userId 1, both in room a. -/
def stP1 : ServerState :=
  (handleJoin (connectSocket stA "c2") "c2" "bob" "a").state

/-- From stP1, bob (c2) sends a private message to alice's userId 0. -/
def privRes : HandlerResult := handlePrivateMessage stP1 "c2" 0 "hi" "bob" true

/-- State after the private message: the store holds one message under
the room tag private-0. -/
def stQ : ServerState := privRes.state

/-- A connection that is connected but never joined: no users entry. -/
def stNoJoin : ServerState := connectSocket st0 "c1"

/-- C1: the claim says membersOf r always equals the set of connections
whose session is currently in r, and that after a room switch the
connection stops receiving broadcasts for the vacated room.  The code
never calls socket.leave on a switch: after c1 switches from room a to
room b, its session says room b and no session is in room a, yet the
socket.io adapter still lists c1 as a member of room a, so c1 keeps
receiving every broadcast targeted at room a. -/
theorem c1_room_switch_keeps_stale_membership :
    (getUser stB.users "c1").map (fun u => u.room) = some "b" ∧
    (userValues stB.users).filter (fun u => u.room == "a") = [] ∧
    membersOf stB.socketRooms "a" = ["c1"] ∧
    ioTo stB "a" = ["c1"] := by decide

/-- C2: the claim says a private message to a live user is delivered to
the recipient's current connection and a confirmation copy to the
sender.  Alice is live on c1 with userId 0, yet the delivery addressed
via recipient.socketId — a field the program never stores — reaches no
connection at all; only the sender confirmation to c2 happens, and the
message is persisted. -/
theorem c2_private_delivery_reaches_no_target :
    getUser stP1.users "c1" = some ⟨0, "alice", "a", none⟩ ∧
    privRes.threw = false ∧
    privRes.state.store = stP1.store ++ [⟨"bob", "hi", "private-0", 0⟩] ∧
    privRes.deliveries =
      [⟨[], Payload.privateIn "bob" "hi" 0⟩,
       ⟨["c2"], Payload.privateOut "alice" "hi" 0⟩] := by decide

/-- C3: the claim says a join from a connection that already has a
session preserves its userId.  The code runs uuidv4 unconditionally on
every join: c1's userId is 0 after joining room a and 1 after the switch
to room b — a fresh identity, not the preserved one. -/
theorem c3_rejoin_generates_fresh_userId :
    (getUser stA.users "c1").map (fun u => u.id) = some 0 ∧
    (getUser stB.users "c1").map (fun u => u.id) = some 1 := by decide

/-- C6: the claim says the refreshed user list broadcast on disconnect
does not contain the disconnected user.  The code emits the list before
deleting users[socket.id], so when alice (c1) disconnects, the list
delivered to the remaining member c2 still carries alice's record. -/
theorem c6_disconnect_user_list_still_contains_departed :
    (handleDisconnect stP1 "c1").deliveries =
      [⟨["c2"], Payload.userLeft "alice has left the room"⟩,
       ⟨["c2"], Payload.userList
          [⟨0, "alice", "a", none⟩, ⟨1, "bob", "a", none⟩]⟩] := by decide

/-- C10: the claim says the chat-message handler is total and reports an
error to the sender when the message field is absent.  In the code,
message.trim() on undefined raises a TypeError before any emit: for
every state the handler terminates exceptionally with no delivery, so no
error event reaches the sender. -/
theorem c10_missing_body_throws (st : ServerState)
    (connId room username : String) (storeOk : Bool) :
    handleChatMessage st connId none room username storeOk =
      ⟨st, [], true⟩ := rfl

/-- C4 counterexample: a connection that is connected but has never
joined (no users entry) sends a valid chat message with room and
username in the payload.  The claim says this fails with NotJoined; in
fact no error is emitted, the message is persisted and broadcast to the
payload's room, tagged with the payload's username. -/
theorem c4_counterexample_no_session_accepted :
    getUser stNoJoin.users "c1" = none ∧
    handleChatMessage stNoJoin "c1" (some "hi") "r" "mallory" true =
      ⟨⟨[], [("c1", ["c1"])], [⟨"mallory", "hi", "r", 0⟩], 0, 1⟩,
       [⟨[], Payload.chatMsg "mallory" "hi" 0⟩], false⟩ := by decide

/-- C4 amended: the chat-message handler never checks for a session and
never fails with NotJoined; for every state and every valid body it
persists and broadcasts a message whose room and username are the ones
supplied in the event payload, whether or not the sender has a session. -/
theorem c4_amended_payload_trusted (st : ServerState)
    (connId m room username : String)
    (h1 : jsTrim m ≠ "") (h2 : ¬ m.length > 500) :
    handleChatMessage st connId (some m) room username true =
      ⟨{ st with store := st.store ++ [⟨username, m, room, st.nextTs⟩]
                 nextTs := st.nextTs + 1 },
       [⟨membersOf st.socketRooms room, Payload.chatMsg username m st.nextTs⟩],
       false⟩ := by
  simp [handleChatMessage, h1, h2, ioTo]

/-- C4 witness: the amended theorem applied at a concrete state and
body. -/
theorem c4_amended_payload_trusted_witness :
    jsTrim "hi" ≠ "" ∧ ¬ ("hi".length > 500) ∧
    handleChatMessage stP1 "c2" (some "hi") "a" "zed" true =
      ⟨{ stP1 with store := stP1.store ++ [⟨"zed", "hi", "a", stP1.nextTs⟩]
                   nextTs := stP1.nextTs + 1 },
       [⟨membersOf stP1.socketRooms "a", Payload.chatMsg "zed" "hi" stP1.nextTs⟩],
       false⟩ :=
  ⟨by decide, by decide,
   c4_amended_payload_trusted stP1 "c2" "hi" "a" "zed" (by decide) (by decide)⟩

/-- C5 counterexample: alice (c1) and bob (c2) are both in room a, so
the room has live members; bob sends a valid message but the store
append fails.  The claim says every member still receives the broadcast;
in fact the handler aborts at the rejected await with no delivery at
all. -/
theorem c5_counterexample_store_failure_suppresses :
    membersOf stP1.socketRooms "a" = ["c1", "c2"] ∧
    handleChatMessage stP1 "c2" (some "hi") "a" "bob" false =
      ⟨stP1, [], true⟩ := by decide

/-- C5 amended: a store failure on an accepted room message suppresses
the live broadcast entirely: for every state and valid body, when the
save rejects the handler terminates exceptionally, emits nothing —
nobody in the room receives the chat message — and leaves the state
unchanged. -/
theorem c5_amended_store_failure_aborts (st : ServerState)
    (connId m room username : String)
    (h1 : jsTrim m ≠ "") (h2 : ¬ m.length > 500) :
    handleChatMessage st connId (some m) room username false =
      ⟨st, [], true⟩ := by
  simp [handleChatMessage, h1, h2]

/-- C5 witness: the amended theorem applied at a concrete state and
body. -/
theorem c5_amended_store_failure_aborts_witness :
    jsTrim "yo" ≠ "" ∧ ¬ ("yo".length > 500) ∧
    handleChatMessage stA "c1" (some "yo") "a" "alice" false =
      ⟨stA, [], true⟩ :=
  ⟨by decide, by decide,
   c5_amended_store_failure_aborts stA "c1" "yo" "a" "alice"
     (by decide) (by decide)⟩

/-- C7 counterexample: bob (c2) sends two consecutive typing signals in
room a with no stop in between.  The claim says the other members
receive exactly one typing event; in fact c1 receives two. -/
theorem c7_counterexample_two_signals_two_emits :
    (handleTyping stP1 "c2" "bob" "a").deliveries ++
      (handleTyping (handleTyping stP1 "c2" "bob" "a").state
        "c2" "bob" "a").deliveries =
      [⟨["c1"], Payload.typing "bob"⟩, ⟨["c1"], Payload.typing "bob"⟩] := by
  decide

/-- C7 amended: the typing handler is a stateless relay: it keeps no
typing state and no timer, changes nothing, and forwards every single
signal as one typing event to the room members other than the sender —
so n consecutive signals produce n emitted events, and two produce two. -/
theorem c7_amended_stateless_relay (st : ServerState)
    (connId username room : String) :
    handleTyping st connId username room =
      ⟨st, [⟨socketTo st room connId, Payload.typing username⟩], false⟩ := rfl

/-- C8: a chat message whose body is empty after trimming or longer than
500 units is rejected: the error event goes to the sending connection
only, nothing is broadcast, and the state — the store included — is
unchanged. -/
theorem c8_invalid_message_rejected (st : ServerState)
    (connId m room username : String) (storeOk : Bool)
    (h : jsTrim m = "" ∨ m.length > 500) :
    handleChatMessage st connId (some m) room username storeOk =
      ⟨st, [⟨[connId], Payload.errorMsg "Invalid message"⟩], false⟩ := by
  simp [handleChatMessage, if_pos h]

/-- C8 witness: the empty body at a concrete state. -/
theorem c8_invalid_message_rejected_witness :
    (jsTrim "" = "" ∨ "".length > 500) ∧
    handleChatMessage stP1 "c1" (some "") "a" "alice" true =
      ⟨stP1, [⟨["c1"], Payload.errorMsg "Invalid message"⟩], false⟩ :=
  ⟨Or.inl rfl,
   c8_invalid_message_rejected stP1 "c1" "" "a" "alice" true (Or.inl rfl)⟩

/-- C9 counterexample: after bob's private message to userId 0 is stored
under the room tag private-0, a third connection joins a room literally
named private-0.  The claim says the history delivered on join never
contains a private message, even for a room named like the tag; in fact
the joiner receives that private message in its chat history. -/
theorem c9_counterexample_private_room_history_leak :
    (handleJoin (connectSocket stQ "c3") "c3" "eve" "private-0").deliveries.head? =
      some ⟨["c3"], Payload.chatHistory [⟨"bob", "hi", "private-0", 0⟩]⟩ := by
  decide

/-- C9 amended: a private message to userId t is persisted under the
room-like tag private-t, and the chat history for a room contains only
stored messages whose room field equals that room — so private messages
stay out of the history of every room whose name differs from their
tag, but a client who joins a room named exactly like the tag does
receive them. -/
theorem c9_amended_tag_and_history_scope :
    (∀ (st : ServerState) (connId : String) (toUserId : Nat)
       (message username : String) (recipient : UserRec),
       (userValues st.users).find? (fun u => u.id == toUserId) =
           some recipient →
       (handlePrivateMessage st connId toUserId message username true).state.store =
         st.store ++
           [⟨username, message, "private-" ++ toString toUserId, st.nextTs⟩]) ∧
    (∀ (st : ServerState) (room : String) (m : StoredMessage),
       m ∈ fetchHistory st room → m.room = room) := by
  constructor
  · intro st connId toUserId message username recipient hfind
    simp [handlePrivateMessage, hfind]
  · intro st room m hm
    have h1 : m ∈ (st.store.filter (fun x => x.room == room)).reverse.take 50 := by
      simpa [fetchHistory] using hm
    have h2 : m ∈ st.store.filter (fun x => x.room == room) :=
      List.mem_reverse.mp (List.mem_of_mem_take h1)
    exact eq_of_beq ((List.mem_filter.mp h2).2)

/-- C9 witness: both halves of the amended theorem at concrete inputs:
bob's message to alice is stored under private-0, and the one message in
the history of room private-0 indeed has room private-0. -/
theorem c9_amended_tag_and_history_scope_witness :
    ((userValues stP1.users).find? (fun u => u.id == 0) =
        some ⟨0, "alice", "a", none⟩) ∧
    (handlePrivateMessage stP1 "c2" 0 "hi" "bob" true).state.store =
      stP1.store ++ [⟨"bob", "hi", "private-" ++ toString 0, stP1.nextTs⟩] ∧
    (⟨"bob", "hi", "private-0", 0⟩ : StoredMessage) ∈
        fetchHistory stQ "private-0" ∧
    (⟨"bob", "hi", "private-0", 0⟩ : StoredMessage).room = "private-0" :=
  ⟨by decide,
   c9_amended_tag_and_history_scope.1 stP1 "c2" 0 "hi" "bob"
     ⟨0, "alice", "a", none⟩ (by decide),
   by decide,
   c9_amended_tag_and_history_scope.2 stQ "private-0"
     ⟨"bob", "hi", "private-0", 0⟩ (by decide)⟩
